import Mathlib

/-!
A verification development for the Junos state module
(salt/states/junos.py) and for the transactional device-session model
described in its specification.

Part 1 shallowly embeds the state functions of the module.  Every state
function builds the uniform result record and delegates the device work to
the execution layer through the name-indexed dispatch table.  The dispatch
table is modelled by the `Salt` structure; an exception raised by the
execution layer is modelled by `Except.error` (the specification has every
delegated operation either return a value or fail with a structured error);
an `Oracle` threads the opaque execution-layer state together with a
counter of delegate invocations, so that "exactly one delegate call" is an
observable fact of the embedding.

Part 2 models the device-session state machine (locking, staged candidate
changes, commit history, rollback, diff) from the specification: that
machine lives in the execution layer and the device SDK, outside the
embedded file, so its definitions follow the specification text.
-/

namespace JunosState

/-- Keyword arguments of a state call: an association list from argument
name to an opaque argument value of type `A` (modelling Python kwargs). -/
abbrev KW (A : Type) := List (String × A)

/-- The uniform result record every state function returns: exactly the
four fields name, changes, result and comment, mirroring the dict literal
`ret` built at the top of every state function in junos.py. -/
structure Ret (V : Type) where
  name : String
  changes : V
  result : Bool
  comment : String
deriving DecidableEq

/-- The execution-layer state together with a counter of how many delegate
invocations have been made through the dispatch table. -/
structure Oracle (σ : Type) where
  state : σ
  calls : Nat

/-- The execution-layer dispatch table (`__salt__` restricted to the
`junos.*` entries used by junos.py).  Each entry receives the arguments the
state module passes, plus the execution-layer state `σ`, and produces
either a changes payload of type `V` or a raised exception of type `E`,
together with the execution-layer state it leaves behind.  Arguments whose
Python values are opaque to the state module are of type `A`. -/
structure Salt (A V E σ : Type) where
  junos_rpc : String → Option A → String → List A → KW A → σ → Except E V × σ
  junos_set_hostname : String → KW A → σ → Except E V × σ
  junos_commit : KW A → σ → Except E V × σ
  junos_rollback : A → KW A → σ → Except E V × σ
  junos_diff : A → σ → Except E V × σ
  junos_cli : String → String → KW A → σ → Except E V × σ
  junos_shutdown : KW A → σ → Except E V × σ
  junos_install_config : String → KW A → σ → Except E V × σ
  junos_zeroize : σ → Except E V × σ
  junos_install_os : String → KW A → σ → Except E V × σ
  junos_file_copy : String → Option A → KW A → σ → Except E V × σ
  junos_lock : σ → Except E V × σ
  junos_unlock : σ → Except E V × σ
  junos_load : String → KW A → σ → Except E V × σ
  junos_commit_check : σ → Except E V × σ
  junos_get_table : A → A → Option A → σ → Except E V × σ

variable {A V E σ : Type}

/-- One invocation of a dispatch-table entry: runs it on the current
execution-layer state and bumps the invocation counter. -/
def call (f : σ → Except E V × σ) (o : Oracle σ) : Except E V × Oracle σ :=
  let p := f o.state
  (p.1, ⟨p.2, o.calls + 1⟩)

/-- Embeds `rpc` (junos.py lines 23-71): when `args` is not None the
delegate receives the splice of `args` as extra positional arguments,
otherwise it is called without them; the changes field of the uniform
record is set to the delegate output. -/
def rpc (sl : Salt A V E σ) (name : String) (dest : Option A) (format : String)
    (args : Option (List A)) (kwargs : KW A) (o : Oracle σ) :
    Except E (Ret V) × Oracle σ :=
  match args with
  | some a =>
    let r := call (sl.junos_rpc name dest format a kwargs) o
    (r.1.map (fun v => ⟨name, v, true, ""⟩), r.2)
  | none =>
    let r := call (sl.junos_rpc name dest format [] kwargs) o
    (r.1.map (fun v => ⟨name, v, true, ""⟩), r.2)

/-- Embeds `set_hostname` (junos.py lines 74-104). -/
def set_hostname (sl : Salt A V E σ) (name : String) (kwargs : KW A) (o : Oracle σ) :
    Except E (Ret V) × Oracle σ :=
  let r := call (sl.junos_set_hostname name kwargs) o
  (r.1.map (fun v => ⟨name, v, true, ""⟩), r.2)

/-- Embeds `commit` (junos.py lines 107-147). -/
def commit (sl : Salt A V E σ) (name : String) (kwargs : KW A) (o : Oracle σ) :
    Except E (Ret V) × Oracle σ :=
  let r := call (sl.junos_commit kwargs) o
  (r.1.map (fun v => ⟨name, v, true, ""⟩), r.2)

/-- Embeds `rollback` (junos.py lines 150-181): the delegate receives the
rollback id, not the symbolic name. -/
def rollback (sl : Salt A V E σ) (name : String) (id : A) (kwargs : KW A) (o : Oracle σ) :
    Except E (Ret V) × Oracle σ :=
  let r := call (sl.junos_rollback id kwargs) o
  (r.1.map (fun v => ⟨name, v, true, ""⟩), r.2)

/-- Embeds `diff` (junos.py lines 184-202): the delegate receives only the
rollback id `d_id`. -/
def diff (sl : Salt A V E σ) (name : String) (d_id : A) (o : Oracle σ) :
    Except E (Ret V) × Oracle σ :=
  let r := call (sl.junos_diff d_id) o
  (r.1.map (fun v => ⟨name, v, true, ""⟩), r.2)

/-- Embeds `cli` (junos.py lines 205-234). -/
def cli (sl : Salt A V E σ) (name : String) (format : String) (kwargs : KW A) (o : Oracle σ) :
    Except E (Ret V) × Oracle σ :=
  let r := call (sl.junos_cli name format kwargs) o
  (r.1.map (fun v => ⟨name, v, true, ""⟩), r.2)

/-- Embeds `shutdown` (junos.py lines 237-260): the delegate receives only
the kwargs. -/
def shutdown (sl : Salt A V E σ) (name : String) (kwargs : KW A) (o : Oracle σ) :
    Except E (Ret V) × Oracle σ :=
  let r := call (sl.junos_shutdown kwargs) o
  (r.1.map (fun v => ⟨name, v, true, ""⟩), r.2)

/-- Embeds `install_config` (junos.py lines 263-329). -/
def install_config (sl : Salt A V E σ) (name : String) (kwargs : KW A) (o : Oracle σ) :
    Except E (Ret V) × Oracle σ :=
  let r := call (sl.junos_install_config name kwargs) o
  (r.1.map (fun v => ⟨name, v, true, ""⟩), r.2)

/-- Embeds `zeroize` (junos.py lines 332-345): the delegate receives no
arguments. -/
def zeroize (sl : Salt A V E σ) (name : String) (o : Oracle σ) :
    Except E (Ret V) × Oracle σ :=
  let r := call sl.junos_zeroize o
  (r.1.map (fun v => ⟨name, v, true, ""⟩), r.2)

/-- Embeds `install_os` (junos.py lines 348-380). -/
def install_os (sl : Salt A V E σ) (name : String) (kwargs : KW A) (o : Oracle σ) :
    Except E (Ret V) × Oracle σ :=
  let r := call (sl.junos_install_os name kwargs) o
  (r.1.map (fun v => ⟨name, v, true, ""⟩), r.2)

/-- Embeds `file_copy` (junos.py lines 383-403). -/
def file_copy (sl : Salt A V E σ) (name : String) (dest : Option A) (kwargs : KW A)
    (o : Oracle σ) : Except E (Ret V) × Oracle σ :=
  let r := call (sl.junos_file_copy name dest kwargs) o
  (r.1.map (fun v => ⟨name, v, true, ""⟩), r.2)

/-- Embeds `lock` (junos.py lines 406-424): the delegate receives no
arguments. -/
def lock (sl : Salt A V E σ) (name : String) (o : Oracle σ) :
    Except E (Ret V) × Oracle σ :=
  let r := call sl.junos_lock o
  (r.1.map (fun v => ⟨name, v, true, ""⟩), r.2)

/-- Embeds `unlock` (junos.py lines 427-439): the delegate receives no
arguments. -/
def unlock (sl : Salt A V E σ) (name : String) (o : Oracle σ) :
    Except E (Ret V) × Oracle σ :=
  let r := call sl.junos_unlock o
  (r.1.map (fun v => ⟨name, v, true, ""⟩), r.2)

/-- Embeds `load` (junos.py lines 442-503). -/
def load (sl : Salt A V E σ) (name : String) (kwargs : KW A) (o : Oracle σ) :
    Except E (Ret V) × Oracle σ :=
  let r := call (sl.junos_load name kwargs) o
  (r.1.map (fun v => ⟨name, v, true, ""⟩), r.2)

/-- Embeds `commit_check` (junos.py lines 506-519): the delegate receives
no arguments. -/
def commit_check (sl : Salt A V E σ) (name : String) (o : Oracle σ) :
    Except E (Ret V) × Oracle σ :=
  let r := call sl.junos_commit_check o
  (r.1.map (fun v => ⟨name, v, true, ""⟩), r.2)

/-- Embeds `get_table` (junos.py lines 522-550): the delegate receives the
table, the file and the path, not the symbolic name. -/
def get_table (sl : Salt A V E σ) (name : String) (table : A) (file : A) (path : Option A)
    (o : Oracle σ) : Except E (Ret V) × Oracle σ :=
  let r := call (sl.junos_get_table table file path) o
  (r.1.map (fun v => ⟨name, v, true, ""⟩), r.2)

/-- One public operation of the state module, together with the arguments
the orchestration layer supplies to it. -/
inductive Op (A : Type) where
  | rpc (name : String) (dest : Option A) (format : String)
      (args : Option (List A)) (kwargs : KW A)
  | set_hostname (name : String) (kwargs : KW A)
  | commit (name : String) (kwargs : KW A)
  | rollback (name : String) (id : A) (kwargs : KW A)
  | diff (name : String) (d_id : A)
  | cli (name : String) (format : String) (kwargs : KW A)
  | shutdown (name : String) (kwargs : KW A)
  | install_config (name : String) (kwargs : KW A)
  | zeroize (name : String)
  | install_os (name : String) (kwargs : KW A)
  | file_copy (name : String) (dest : Option A) (kwargs : KW A)
  | lock (name : String)
  | unlock (name : String)
  | load (name : String) (kwargs : KW A)
  | commit_check (name : String)
  | get_table (name : String) (table : A) (file : A) (path : Option A)

/-- The caller-supplied symbolic name of an operation (the first positional
argument of every state function). -/
def opName : Op A → String
  | .rpc name _ _ _ _ => name
  | .set_hostname name _ => name
  | .commit name _ => name
  | .rollback name _ _ => name
  | .diff name _ => name
  | .cli name _ _ => name
  | .shutdown name _ => name
  | .install_config name _ => name
  | .zeroize name => name
  | .install_os name _ => name
  | .file_copy name _ _ => name
  | .lock name => name
  | .unlock name => name
  | .load name _ => name
  | .commit_check name => name
  | .get_table name _ _ _ => name

/-- The single execution-layer call an operation makes, with the exact
arguments the state function passes to the dispatch table (for `rpc`, both
the args-is-None branch and the spliced-args branch pass the positional
argument list `args.getD []`). -/
def delegateOf (sl : Salt A V E σ) : Op A → σ → Except E V × σ
  | .rpc name dest format args kwargs => sl.junos_rpc name dest format (args.getD []) kwargs
  | .set_hostname name kwargs => sl.junos_set_hostname name kwargs
  | .commit _ kwargs => sl.junos_commit kwargs
  | .rollback _ id kwargs => sl.junos_rollback id kwargs
  | .diff _ d_id => sl.junos_diff d_id
  | .cli name format kwargs => sl.junos_cli name format kwargs
  | .shutdown _ kwargs => sl.junos_shutdown kwargs
  | .install_config name kwargs => sl.junos_install_config name kwargs
  | .zeroize _ => sl.junos_zeroize
  | .install_os name kwargs => sl.junos_install_os name kwargs
  | .file_copy name dest kwargs => sl.junos_file_copy name dest kwargs
  | .lock _ => sl.junos_lock
  | .unlock _ => sl.junos_unlock
  | .load name kwargs => sl.junos_load name kwargs
  | .commit_check _ => sl.junos_commit_check
  | .get_table _ table file path => sl.junos_get_table table file path

/-- Runs one public operation of the state module against the dispatch
table and the execution layer. -/
def runOp (sl : Salt A V E σ) (o : Oracle σ) : Op A → Except E (Ret V) × Oracle σ
  | .rpc name dest format args kwargs => rpc sl name dest format args kwargs o
  | .set_hostname name kwargs => set_hostname sl name kwargs o
  | .commit name kwargs => commit sl name kwargs o
  | .rollback name id kwargs => rollback sl name id kwargs o
  | .diff name d_id => diff sl name d_id o
  | .cli name format kwargs => cli sl name format kwargs o
  | .shutdown name kwargs => shutdown sl name kwargs o
  | .install_config name kwargs => install_config sl name kwargs o
  | .zeroize name => zeroize sl name o
  | .install_os name kwargs => install_os sl name kwargs o
  | .file_copy name dest kwargs => file_copy sl name dest kwargs o
  | .lock name => lock sl name o
  | .unlock name => unlock sl name o
  | .load name kwargs => load sl name kwargs o
  | .commit_check name => commit_check sl name o
  | .get_table name table file path => get_table sl name table file path o

/-- A concrete dispatch table whose entries all succeed, used to evaluate
the theorems on concrete inputs. -/
def salt0 : Salt String String String Nat where
  junos_rpc := fun _ _ _ _ _ s => (.ok "rpc output", s + 1)
  junos_set_hostname := fun _ _ s => (.ok "hostname output", s + 1)
  junos_commit := fun _ s => (.ok "commit output", s + 1)
  junos_rollback := fun _ _ s => (.ok "rollback output", s + 1)
  junos_diff := fun _ s => (.ok "diff output", s + 1)
  junos_cli := fun _ _ _ s => (.ok "cli output", s + 1)
  junos_shutdown := fun _ s => (.ok "shutdown output", s + 1)
  junos_install_config := fun _ _ s => (.ok "install_config output", s + 1)
  junos_zeroize := fun s => (.ok "zeroize output", s + 1)
  junos_install_os := fun _ _ s => (.ok "install_os output", s + 1)
  junos_file_copy := fun _ _ _ s => (.ok "file_copy output", s + 1)
  junos_lock := fun s => (.ok "lock output", s + 1)
  junos_unlock := fun s => (.ok "unlock output", s + 1)
  junos_load := fun _ _ s => (.ok "load output", s + 1)
  junos_commit_check := fun s => (.ok "commit_check output", s + 1)
  junos_get_table := fun _ _ _ s => (.ok "get_table output", s + 1)

/-- A concrete dispatch table whose zeroize entry raises, used to evaluate
the exception-propagation theorem on a concrete input. -/
def saltErr : Salt String String String Nat :=
  { salt0 with junos_zeroize := fun s => (.error "RpcError: zeroize failed", s + 1) }

end JunosState

namespace SessionModel

/-- Modelled from the spec: the connection states of a Session (spec 4.2);
the lock/candidate/commit machine itself lives in the execution layer and
the device SDK, outside the embedded file. -/
inductive ConnState where
  | Disconnected
  | Connected
  | Locked
deriving DecidableEq

/-- Modelled from the spec: the error taxonomy of the session machine
(spec 7), restricted to the errors the modelled operations raise. -/
inductive SErr where
  | AlreadyLockedError
  | NotLockedError
  | NotConnectedError
  | RollbackError
  | CommitError
deriving DecidableEq

/-- Modelled from the spec: a configuration as its ordered list of lines
(diffs are line-level, spec 4.3). -/
abbrev Config := List String

/-- Modelled from the spec: the target format of a staged change
(spec 4.3: format is text, xml or set-commands). -/
inductive CfgFormat where
  | text
  | xml
  | setCommands
deriving DecidableEq

/-- Modelled from the spec: the merge policy of a staged change
(spec 3: merge / replace / overwrite). -/
inductive MergePolicy where
  | merge
  | replace
  | overwrite
deriving DecidableEq

/-- Modelled from the spec: one staged configuration delta (spec 3,
Candidate Change): source content, target format and merge policy. -/
structure CandidateChange where
  content : Config
  fmt : CfgFormat
  policy : MergePolicy
deriving DecidableEq

/-- Modelled from the spec: one session against one device (spec 3).  The
commit history is most-recent-first and `history.headD []` is the active
committed configuration (spec 3: index 0 is the currently active committed
configuration); `staged` is the in-progress staged set of candidate
changes. -/
structure Session where
  conn : ConnState
  history : List Config
  staged : List CandidateChange
deriving DecidableEq

/-- Boolean membership of a line in a configuration. -/
def memLine (l : String) : Config → Bool
  | [] => false
  | x :: xs => x == l || memLine l xs

/-- Modelled from the spec: last-applied-wins merge of configurations
(spec 3: later changes merge over earlier ones, last-applied-wins at the
hierarchy touched; a line of the base survives unless the overlay touches
it). -/
def mergeConfig (base overlay : Config) : Config :=
  base.filter (fun l => !(memLine l overlay)) ++ overlay

/-- Modelled from the spec: the effect of one staged change on a
configuration: merge folds the overlay in, replace and overwrite supersede
the configuration wholesale. -/
def applyChange (c : Config) (ch : CandidateChange) : Config :=
  match ch.policy with
  | .merge => mergeConfig c ch.content
  | .replace => ch.content
  | .overwrite => ch.content

/-- The active committed configuration of a session (commit-history index
0, spec 3). -/
def active (s : Session) : Config :=
  s.history.headD []

/-- Modelled from the spec: the candidate configuration obtained by
applying the staged set, in order, over the active configuration. -/
def candidateConfig (s : Session) : Config :=
  s.staged.foldl applyChange (active s)

/-- Modelled from the spec: one line-level change of a diff (spec 4.3:
added/removed lines between two configurations). -/
inductive Change where
  | added (line : String)
  | removed (line : String)
deriving DecidableEq

/-- Modelled from the spec: the ordered line-level diff between two
configurations: lines of `a` missing from `b` are removed, lines of `b`
missing from `a` are added. -/
def computeDiff (a b : Config) : List Change :=
  (a.filter (fun l => !(memLine l b))).map .removed ++
    (b.filter (fun l => !(memLine l a))).map .added

/-- Modelled from the spec: Lock Manager acquire (spec 4.2): fails with
AlreadyLockedError when the session is already Locked, transitions
Connected to Locked, and fails from Disconnected (no transition skips a
state). -/
def acquire (s : Session) : Except SErr Session :=
  if s.conn = .Locked then .error .AlreadyLockedError
  else if s.conn = .Connected then .ok { s with conn := .Locked }
  else .error .NotConnectedError

/-- Modelled from the spec: Lock Manager release (spec 4.2): fails with
NotLockedError whenever the session is not Locked, transitions Locked to
Connected. -/
def release (s : Session) : Except SErr Session :=
  if s.conn = .Locked then .ok { s with conn := .Connected }
  else .error .NotLockedError

/-- One operation of a lock-manager call sequence. -/
inductive LockOp where
  | acquireOp
  | releaseOp
deriving DecidableEq

/-- Dispatch of one lock-manager operation. -/
def lockStep : LockOp → Session → Except SErr Session
  | .acquireOp, s => acquire s
  | .releaseOp, s => release s

/-- One lock-manager operation, keeping the current session untouched when
the operation fails (a failed acquire or release changes no state). -/
def stepKeep (op : LockOp) (s : Session) : Session :=
  match lockStep op s with
  | .ok s' => s'
  | .error _ => s

/-- Runs a sequence of lock-manager operations from a session. -/
def runLockSeq (ops : List LockOp) (s : Session) : Session :=
  ops.foldl (fun s op => stepKeep op s) s

/-- Modelled from the spec: diff is a pure read (spec 4.3): it computes the
line-level changes between the active committed configuration and the
candidate obtained from the current staged set, never fails, is usable at
any lock state, and returns the session unchanged. -/
def diffOp (s : Session) : Except SErr (List Change × Session) :=
  .ok (computeDiff (active s) (candidateConfig s), s)

/-- Modelled from the spec: Commit Controller commit (spec 4.4): with an
empty staged set it is the documented no-op (spec 9 leaves the choice of
no-op versus error to the implementer); otherwise it requires Locked,
clears the staged set and pushes the candidate as the new commit record at
index 0, with the history bounded at 50 records (oldest evicted).  The
confirm-timer is device-side state and is not tracked here. -/
def commit (comment : String) (confirm_minutes : Nat) (full : Bool) (sync : Bool)
    (s : Session) : Except SErr Session :=
  if s.staged = [] then .ok s
  else if s.conn = .Locked then
    .ok { s with history := (candidateConfig s :: s.history).take 50, staged := [] }
  else .error .NotLockedError

/-- Modelled from the spec: Commit Controller rollback (spec 4.4): fails
with RollbackError when the index is outside [0,49] or beyond the commit
history; otherwise it requires Locked and loads the historical
configuration at the index into the candidate set as a wholesale
replacement, without auto-committing. -/
def rollback (i : Nat) (s : Session) : Except SErr Session :=
  if 49 < i ∨ s.history.length ≤ i then .error .RollbackError
  else if s.conn = .Locked then
    .ok { s with staged := [⟨s.history.getD i [], .text, .replace⟩] }
  else .error .NotLockedError

/-- A concrete connected session used to evaluate the lock theorems. -/
def sessConn : Session :=
  ⟨.Connected, [["set system host-name R1"]], []⟩

/-- A concrete locked session with a two-entry commit history and nothing
staged, used to evaluate the rollback and commit theorems. -/
def sessHist : Session :=
  ⟨.Locked, [["set system host-name R2"], ["set system host-name R1"]], []⟩

end SessionModel

namespace JunosState

/-- Every state operation is one delegate invocation: its outcome is the
delegate outcome mapped into the uniform record, and the oracle advances by
exactly that one call. -/
theorem runOp_char {A V E σ : Type} (sl : Salt A V E σ) (o : Oracle σ) (op : Op A) :
    runOp sl o op =
      ((delegateOf sl op o.state).1.map (fun v => ⟨opName op, v, true, ""⟩),
        ⟨(delegateOf sl op o.state).2, o.calls + 1⟩) := by
  cases op with
  | rpc name dest format args kwargs => cases args <;> rfl
  | set_hostname name kwargs => rfl
  | commit name kwargs => rfl
  | rollback name id kwargs => rfl
  | diff name d_id => rfl
  | cli name format kwargs => rfl
  | shutdown name kwargs => rfl
  | install_config name kwargs => rfl
  | zeroize name => rfl
  | install_os name kwargs => rfl
  | file_copy name dest kwargs => rfl
  | lock name => rfl
  | unlock name => rfl
  | load name kwargs => rfl
  | commit_check name => rfl
  | get_table name table file path => rfl

/-- Claim C1: for every public operation and every input, the operation
either fails with the exception of its single delegated execution-module
call or returns the uniform result record with result = true and
comment = ""; the outcome is exactly the delegate outcome mapped into the
record, so the result boolean and the comment reflect the success or
failure of the delegated operation without ambiguity and there is no
partial or ambiguous return. -/
theorem c1_return_or_fail_reflects_delegate {A V E σ : Type}
    (sl : Salt A V E σ) (o : Oracle σ) (op : Op A) :
    (runOp sl o op).1 =
      (delegateOf sl op o.state).1.map (fun v => ⟨opName op, v, true, ""⟩) := by
  rw [runOp_char]

/-- Claim C2: every public operation, on every input on which it returns,
returns the record whose four fields are the caller-supplied symbolic
name, the payload produced by the delegated execution-module call, the
boolean true and the empty string; the shape is the structure `Ret`,
identical across all operations. -/
theorem c2_uniform_record_shape {A V E σ : Type}
    (sl : Salt A V E σ) (o : Oracle σ) (op : Op A) (v : V)
    (h : (delegateOf sl op o.state).1 = .ok v) :
    (runOp sl o op).1 = .ok ⟨opName op, v, true, ""⟩ := by
  rw [runOp_char, h]
  rfl

/-- Evaluates claim C2 on a concrete operation and dispatch table. -/
theorem c2_uniform_record_shape_witness :
    (delegateOf salt0 (.commit "apply config" []) (0 : Nat)).1 = .ok "commit output" ∧
    (runOp salt0 ⟨0, 0⟩ (.commit "apply config" [])).1 =
      .ok ⟨"apply config", "commit output", true, ""⟩ :=
  ⟨rfl, c2_uniform_record_shape salt0 ⟨0, 0⟩ (.commit "apply config" []) "commit output" rfl⟩

/-- Claim C8: every public operation invokes its execution-module delegate
exactly once per call (the invocation counter advances by exactly one) and
performs no silent retry or state repair: the execution-layer state after
the operation is exactly the state the single delegate call left behind,
also on failure. -/
theorem c8_single_delegate_invocation {A V E σ : Type}
    (sl : Salt A V E σ) (o : Oracle σ) (op : Op A) :
    (runOp sl o op).2.calls = o.calls + 1 ∧
    (runOp sl o op).2.state = (delegateOf sl op o.state).2 := by
  rw [runOp_char]
  exact ⟨rfl, rfl⟩

/-- Claim C9: no public operation handles errors itself: when the delegated
execution-module call raises, the same exception propagates unchanged and
no uniform result record is produced for that call. -/
theorem c9_exception_propagates_unchanged {A V E σ : Type}
    (sl : Salt A V E σ) (o : Oracle σ) (op : Op A) (e : E)
    (h : (delegateOf sl op o.state).1 = .error e) :
    (runOp sl o op).1 = .error e := by
  rw [runOp_char, h]
  rfl

/-- Evaluates claim C9 on a concrete operation whose delegate raises. -/
theorem c9_exception_propagates_unchanged_witness :
    (delegateOf saltErr (.zeroize "wipe device") (0 : Nat)).1 =
      .error "RpcError: zeroize failed" ∧
    (runOp saltErr ⟨0, 0⟩ (.zeroize "wipe device")).1 =
      .error "RpcError: zeroize failed" :=
  ⟨rfl, c9_exception_propagates_unchanged saltErr ⟨0, 0⟩ (.zeroize "wipe device")
    "RpcError: zeroize failed" rfl⟩

/-- Claim C10: for every name, dest, format, keyword arguments, dispatch
table and execution-layer state, calling rpc with an empty positional
argument list returns exactly what calling it with args = None returns:
both branches invoke the delegate with identical arguments. -/
theorem c10_rpc_empty_args_eq_none {A V E σ : Type}
    (sl : Salt A V E σ) (name : String) (dest : Option A) (format : String)
    (kwargs : KW A) (o : Oracle σ) :
    rpc sl name dest format (some []) kwargs o = rpc sl name dest format none kwargs o :=
  rfl

end JunosState

namespace SessionModel

/-- A line of a configuration is found by the boolean membership test. -/
theorem memLine_of_mem {c : Config} {l : String} (h : l ∈ c) : memLine l c = true := by
  induction c with
  | nil => cases h
  | cons x xs ih =>
    rcases List.mem_cons.mp h with h | h
    · simp [memLine, h]
    · simp [memLine, ih h]

/-- Filtering a configuration by absence from itself leaves nothing. -/
theorem filter_not_memLine_self (c : Config) :
    c.filter (fun l => !(memLine l c)) = [] := by
  rw [List.filter_eq_nil_iff]
  intro a ha
  simp [memLine_of_mem ha]

/-- The diff of a configuration against itself is empty. -/
theorem computeDiff_self (c : Config) : computeDiff c c = [] := by
  simp [computeDiff, filter_not_memLine_self]

/-- Appending one operation to a lock-manager sequence runs it on the final
session of the sequence. -/
theorem runLockSeq_concat (ops : List LockOp) (op : LockOp) (s : Session) :
    runLockSeq (ops ++ [op]) s = stepKeep op (runLockSeq ops s) := by
  simp [runLockSeq, List.foldl_append]

/-- Claim C3: for every sequence of acquire/release operations on one
session, the lock state machine never makes an invalid transition: at every
reachable session, acquiring while Locked fails with AlreadyLockedError and
leaves the session (hence the original lock) intact, and releasing while
not Locked fails with NotLockedError. -/
theorem c3_lock_state_machine_safe (ops : List LockOp) (s : Session) :
    ((runLockSeq ops s).conn = .Locked →
      acquire (runLockSeq ops s) = .error .AlreadyLockedError ∧
      runLockSeq (ops ++ [.acquireOp]) s = runLockSeq ops s) ∧
    ((runLockSeq ops s).conn ≠ .Locked →
      release (runLockSeq ops s) = .error .NotLockedError) := by
  constructor
  · intro h
    constructor
    · simp [acquire, h]
    · rw [runLockSeq_concat]
      simp [stepKeep, lockStep, acquire, h]
  · intro h
    simp [release, h]

/-- Evaluates claim C3 on concrete sequences: a second acquire from a
session locked by the first acquire fails, and a release on the unlocked
session fails. -/
theorem c3_lock_state_machine_safe_witness :
    acquire (runLockSeq [.acquireOp] sessConn) = .error .AlreadyLockedError ∧
    release (runLockSeq [] sessConn) = .error .NotLockedError :=
  ⟨((c3_lock_state_machine_safe [.acquireOp] sessConn).1 (by decide)).1,
    (c3_lock_state_machine_safe [] sessConn).2 (by decide)⟩

/-- Claim C4: rollback applied to an index outside [0,49], or beyond the
current commit-history length, fails with RollbackError. -/
theorem c4_rollback_bad_index (i : Nat) (s : Session)
    (h : 49 < i ∨ s.history.length < i) :
    rollback i s = .error .RollbackError := by
  have hg : 49 < i ∨ s.history.length ≤ i := by
    rcases h with h | h
    · exact Or.inl h
    · exact Or.inr (Nat.le_of_lt h)
  simp only [rollback]
  rw [if_pos hg]

/-- Evaluates claim C4 at index 50 on a concrete session. -/
theorem c4_rollback_bad_index_witness :
    (49 < 50 ∨ sessHist.history.length < 50) ∧
    rollback 50 sessHist = .error .RollbackError :=
  ⟨by decide, c4_rollback_bad_index 50 sessHist (by decide)⟩

/-- Claim C5: commit with no staged changes is the documented no-op: it
returns the session unchanged, and in particular it never creates a new
commit record (the history is untouched). -/
theorem c5_commit_empty_staged_noop (comment : String) (confirm_minutes : Nat)
    (full : Bool) (sync : Bool) (s : Session) (h : s.staged = []) :
    commit comment confirm_minutes full sync s = .ok s := by
  simp only [commit]
  rw [if_pos h]

/-- Evaluates claim C5 on a concrete session with nothing staged. -/
theorem c5_commit_empty_staged_noop_witness :
    sessHist.staged = [] ∧ commit "noop" 0 false false sessHist = .ok sessHist :=
  ⟨rfl, c5_commit_empty_staged_noop "noop" 0 false false sessHist rfl⟩

/-- Claim C6: diff is a pure read: at every session and every lock state it
returns the line-level changes between the active committed configuration
and the candidate obtained from the current staged set, it never fails, and
it changes no session, candidate or device state. -/
theorem c6_diff_pure_read (s : Session) (c : ConnState) :
    diffOp { s with conn := c } =
      .ok (computeDiff (active s) (candidateConfig s), { s with conn := c }) :=
  rfl

/-- Claim C7: for every valid history index i, rollback i followed by
commit succeeds and yields a session whose active configuration has an
empty diff against the historical configuration at index i: the round trip
exactly restores the configuration recorded at index i. -/
theorem c7_rollback_commit_roundtrip (s : Session) (i : Nat)
    (comment : String) (confirm_minutes : Nat) (full : Bool) (sync : Bool)
    (hconn : s.conn = .Locked) (h49 : i ≤ 49) (hlen : i < s.history.length) :
    ∃ s₁ s₂,
      rollback i s = .ok s₁ ∧
      commit comment confirm_minutes full sync s₁ = .ok s₂ ∧
      computeDiff (active s₂) (s.history.getD i []) = [] := by
  have hg : ¬(49 < i ∨ s.history.length ≤ i) := by omega
  refine ⟨{ s with staged := [⟨s.history.getD i [], .text, .replace⟩] },
    { s with
        history := (s.history.getD i [] :: s.history).take 50,
        staged := [] }, ?_, ?_, ?_⟩
  · simp only [rollback]
    rw [if_neg hg, if_pos hconn]
  · simp only [commit]
    rw [if_neg (by simp), if_pos hconn]
    simp [candidateConfig, active, applyChange]
  · show computeDiff (s.history.getD i []) (s.history.getD i []) = []
    exact computeDiff_self _

/-- Evaluates claim C7 at index 1 of a concrete locked session with a
two-entry history. -/
theorem c7_rollback_commit_roundtrip_witness :
    ∃ s₁ s₂,
      rollback 1 sessHist = .ok s₁ ∧
      commit "restore" 0 false false s₁ = .ok s₂ ∧
      computeDiff (active s₂) (sessHist.history.getD 1 []) = [] :=
  c7_rollback_commit_roundtrip sessHist 1 "restore" 0 false false rfl
    (by decide) (by decide)

end SessionModel
